import Mathlib

/-!
Verification of the `websiteChecker.py` command-line tool.

The program is a linear script: parse CLI flags, fetch one page with an
HTTP GET, parse the HTML, extract anchor `href` or image `src` attribute
values, print a report (optionally detailed, with resolved unique URLs or
per-image HEAD sizes), optionally save the report to a file, optionally
print host resource snapshots.

Shallow embedding choices:
* An HTML document is the ordered list of its elements, each a tag name
  with an ordered attribute list; `find_all` models
  `soup.find_all(tag, attr=True)` (document-order filter of elements of
  the tag carrying the attribute).
* Printing is modelled as the ordered list of printed lines; a `print`
  of a string containing a leading newline contributes an empty line
  followed by the text line.
* The network is abstract: an environment supplies the outcome of the
  GET for each URL (`Except` error text or body text), the outcome of a
  HEAD for each URL (`Except` error text or optional Content-Length
  header), the HTML parser, and the resource-monitor sample lines.
* Issued HTTP requests are recorded in order in the run result.
* A file write with mode `'w'` truncates, so a write record is the full
  new content of the file.
-/

/-- One HTML attribute: a name/value pair. -/
structure Attr where
  name : String
  value : String
deriving DecidableEq, Repr

/-- One HTML element: tag name plus its attributes in source order. -/
structure Element where
  tag : String
  attrs : List Attr
deriving DecidableEq, Repr

/-- A parsed document: its elements in document order. -/
abbrev Doc := List Element

/-- Attribute lookup on an element (first attribute of the given name),
modelling BeautifulSoup `element[attr]` and attribute presence. -/
def getAttr (e : Element) (a : String) : Option String :=
  (e.attrs.find? (fun p => p.name == a)).map (fun p => p.value)

/-- Model of `soup.find_all(tag, attr=True)`: every element of the given
tag that carries the given attribute, in document order. -/
def find_all (doc : Doc) (tag a : String) : List Element :=
  doc.filter (fun e => e.tag == tag && (getAttr e a).isSome)

/-- Model of `count_links(soup)`: the number of anchors carrying `href`,
together with their `href` values. `link['href']` cannot fail on the
filtered elements, modelled by defaulting the (always present)
attribute. -/
def count_links (doc : Doc) : Nat × List String :=
  let links := find_all doc "a" "href"
  (links.length, links.map (fun e => (getAttr e "href").getD ""))

/-- Model of `count_images(soup)`: the number of `img` elements carrying
`src`, together with their `src` values. -/
def count_images (doc : Doc) : Nat × List String :=
  let images := find_all doc "img" "src"
  (images.length, images.map (fun e => (getAttr e "src").getD ""))

/-- The attribute values of elements of a tag that carry the attribute,
in document order, elements without the attribute excluded entirely —
the specification's characterisation of extraction, written
independently of `find_all`. -/
def specAttrValues (doc : Doc) (tag a : String) : List String :=
  doc.filterMap (fun e => if e.tag = tag then getAttr e a else none)

/-- Model of `display_statistics(count, details, type_)`: the lines
printed — the count line, then, when the detail list is non-empty
(Python truthiness of a list), a blank line, a `Details:` header and
1-indexed entries. -/
def display_statistics (count : Nat) (details : List String) (t : String) : List String :=
  ("Number of " ++ t ++ ": " ++ toString count) ::
    (if details.isEmpty then []
     else "" :: "Details:" ::
       details.enum.map (fun p => toString (p.1 + 1) ++ ". " ++ p.2))

/-- Model of `save_to_file(filename, count, details, type_)`: the full
content written to the file (mode `'w'` truncates, so this is the file's
whole new content) and the confirmation line printed afterwards. -/
def save_to_file (filename : String) (count : Nat) (details : List String) (t : String) :
    String × String :=
  let content :=
    "Number of " ++ t ++ ": " ++ toString count ++ "\n" ++
      (if details.isEmpty then ""
       else "\nDetails:\n" ++
         String.join (details.enum.map (fun p => toString (p.1 + 1) ++ ". " ++ p.2 ++ "\n")))
  (content, "Results saved to " ++ filename)

/-- Split a character list at every occurrence of a separator character
(the pieces, in order, without the separator). -/
def splitOnChar (c : Char) : List Char → List (List Char)
  | [] => [[]]
  | x :: xs =>
    if x = c then [] :: splitOnChar c xs
    else
      match splitOnChar c xs with
      | [] => [[x]]
      | y :: ys => (x :: y) :: ys

/-- Whether `pat` occurs as a contiguous substring. -/
def hasSubstr (pat : List Char) : List Char → Bool
  | [] => pat.isEmpty
  | x :: xs => pat.isPrefixOf (x :: xs) || hasSubstr pat xs

/-- Split at the first occurrence of `pat`: the part before it and the
part after it, or `none` when `pat` does not occur. -/
def splitFirstSub (pat : List Char) : List Char → Option (List Char × List Char)
  | [] => if pat.isEmpty then some ([], []) else none
  | x :: xs =>
    if pat.isPrefixOf (x :: xs) then some ([], (x :: xs).drop pat.length)
    else
      match splitFirstSub pat xs with
      | some (a, b) => some (x :: a, b)
      | none => none

/-- Interleave a separator character between the pieces. -/
def interChar (c : Char) : List (List Char) → List Char
  | [] => []
  | [x] => x
  | x :: xs => x ++ c :: interChar c xs

/-- Modelled from the spec: the external URL-resolution collaborator
(`urllib.parse.urljoin`), "standard base+relative URL resolution rules",
on character lists. Covers the reference shapes the program meets on
http(s) pages: a reference with its own scheme, a network-path `//`
reference, an absolute-path `/` reference, the empty reference, and a
plain relative reference merged onto the base path; query/fragment and
dot-segment handling are outside the modelled fragment. -/
def urljoinCh (base ref : List Char) : List Char :=
  if hasSubstr [':', '/', '/'] ref then ref
  else
    match splitFirstSub [':', '/', '/'] base with
    | some (scheme, rest) =>
      if [ '/', '/'].isPrefixOf ref then scheme ++ ':' :: ref
      else
        let parts := splitOnChar '/' rest
        let authority := parts.headD []
        if ['/'].isPrefixOf ref then scheme ++ [':', '/', '/'] ++ authority ++ ref
        else if ref.isEmpty then base
        else
          scheme ++ [':', '/', '/'] ++ authority ++ '/' ::
            interChar '/' (parts.tail.dropLast ++ [ref])
    | none => ref

/-- Modelled from the spec: `urllib.parse.urljoin` on strings, via its
character-list implementation. -/
def urljoin (base ref : String) : String :=
  ⟨urljoinCh base.data ref.data⟩

/-- Python `set(...)` built by insertion, iterated here in
first-insertion order (CPython guarantees no particular order; claims
about the set are stated order-insensitively). -/
def pySet (l : List String) : List String :=
  l.foldl (fun acc x => if x ∈ acc then acc else acc ++ [x]) []

/-- The parsed command line (`argparse` result). `save` is `none` when
`-s` is absent; Python tests it for truthiness, so the empty string also
disables saving. -/
structure Args where
  url : String
  link : Bool
  picture : Bool
  save : Option String
  detailed : Bool
  stats : Bool
  ressources : Bool
deriving DecidableEq, Repr

/-- An HTTP request issued by the program. -/
inductive Request where
  | get (url : String)
  | head (url : String)
deriving DecidableEq, Repr

/-- The external world: outcome of a GET (error text or body text),
outcome of a HEAD (error text, or the optional `Content-Length` header),
the HTML parser, and the resource-monitor lines (sample index 0 = before
fetch, 1 = after fetch, 2 = after processing) with the fetch-timing
line. -/
structure Env where
  fetch : String → Except String String
  headReq : String → Except String (Option String)
  parse : String → Doc
  resLines : Nat → List String
  fetchTimeLine : String

/-- Everything observable from one run: printed lines in order, HTTP
requests issued in order, and file writes performed (filename with the
full overwritten content). -/
structure RunResult where
  output : List String
  requests : List Request
  fileWrites : List (String × String)
deriving DecidableEq, Repr

/-- Model of `fetch_page(url)`: the GET outcome as `some` body on
success and `none` after a `RequestException`, paired with the lines
printed. -/
def fetch_page (env : Env) (url : String) : Option String × List String :=
  match env.fetch url with
  | .ok t => (some t, [])
  | .error e => (none, ["Error fetching URL: " ++ e])

/-- One iteration of the per-image stats loop in `main`: resolve the
src, issue the HEAD, and produce the printed line (size line on success,
error line on a `RequestException`) together with the issued request. -/
def imageStat (env : Env) (base img : String) : String × Request :=
  let img_url := urljoin base img
  match env.headReq img_url with
  | .ok h =>
    ("Image URL: " ++ img_url ++ " | Size: " ++ h.getD "unknown" ++ " bytes", .head img_url)
  | .error e =>
    ("Error getting image size for " ++ img ++ ": " ++ e, .head img_url)

/-- Model of `main()` after `argparse` has produced `args`: the
mode-conflict check, the `args.link` default, the optional resource
blocks, the fetch with the falsy-content early return
(`if not page_content`, so both `None` and the empty string return), the
branch on mode with its optional detailed and stats output, the optional
save, and the final resource block. Printed lines, issued requests and
file writes are collected in order. -/
def runMain (env : Env) (args : Args) : RunResult :=
  if args.link && args.picture then
    ⟨["Please choose either --link or --picture, not both."], [], []⟩
  else
    let argLink := args.link || !args.picture
    let out0 :=
      if args.ressources then "Before fetching the page:" :: env.resLines 0 else []
    let fp := fetch_page env args.url
    let out1 := out0 ++ fp.2
    match fp.1 with
    | none => ⟨out1, [.get args.url], []⟩
    | some body =>
      if body = "" then ⟨out1, [.get args.url], []⟩
      else
        let out2 := out1 ++
          (if args.ressources then
             ["", "After fetching the page:"] ++ env.resLines 1 ++ [env.fetchTimeLine]
           else [])
        let doc := env.parse body
        let br :=
          if argLink then
            let cd := count_links doc
            let modeOut :=
              if !args.detailed then ["Number of clickable links: " ++ toString cd.1]
              else display_statistics cd.1 cd.2 "clickable links"
            let statsOut :=
              if args.stats then
                ["", "Unique link URLs:",
                 String.intercalate ", " (pySet (cd.2.map (fun l => urljoin args.url l)))]
              else []
            (cd, modeOut ++ statsOut, ([] : List Request))
          else
            let cd := count_images doc
            let modeOut :=
              if !args.detailed then ["Number of images: " ++ toString cd.1]
              else display_statistics cd.1 cd.2 "images"
            let statsPart :=
              if args.stats then cd.2.map (fun img => imageStat env args.url img) else []
            (cd, modeOut ++ statsPart.map Prod.fst, statsPart.map Prod.snd)
        let sv :=
          match args.save with
          | some f =>
            if f ≠ "" then
              let s := save_to_file f br.1.1 br.1.2
                (if argLink then "clickable links" else "images")
              ([s.2], [(f, s.1)])
            else ([], [])
          | none => ([], [])
        let out3 :=
          if args.ressources then ["", "After processing the page:"] ++ env.resLines 2
          else []
        ⟨out2 ++ br.2.1 ++ sv.1 ++ out3, [.get args.url] ++ br.2.2, sv.2⟩

/-- A concrete document: two anchors with the same `href`, one with
another `href`, and one anchor without `href`. -/
def wDoc : Doc :=
  [⟨"a", [⟨"href", "/a"⟩]⟩, ⟨"a", [⟨"href", "/a"⟩]⟩, ⟨"a", [⟨"href", "/b"⟩]⟩,
   ⟨"a", [⟨"id", "x"⟩]⟩]

/-- A concrete environment used to instantiate the run theorems. -/
def wEnv : Env :=
  { fetch := fun _ => .ok "<html>", headReq := fun _ => .ok (some "10"),
    parse := fun _ => wDoc, resLines := fun _ => [], fetchTimeLine := "t" }

/-- Concrete default-flag arguments targeting http://x.test/. -/
def wArgs : Args :=
  { url := "http://x.test/", link := true, picture := false, save := none,
    detailed := false, stats := false, ressources := false }

/-- Environment whose fetch succeeds with an empty body. -/
def wEnvEmptyBody : Env :=
  { wEnv with fetch := fun _ => .ok "" }

/-- Environment whose fetch fails. -/
def wEnvFetchFail : Env :=
  { wEnv with fetch := fun _ => .error "404 Client Error: Not Found" }

/-- Environment with two images where the HEAD for the first one
fails. -/
def wEnvImages : Env :=
  { wEnv with
    parse := fun _ => [⟨"img", [⟨"src", "/i1.png"⟩]⟩, ⟨"img", [⟨"src", "/i2.png"⟩]⟩],
    headReq := fun u => if u = "http://x.test/i1.png" then .error "boom" else .ok (some "42") }

/-- Environment whose parsed document has no elements at all. -/
def wEnvNoTags : Env :=
  { wEnv with parse := fun _ => [] }

theorem find_all_map_eq (doc : Doc) (t a : String) :
    (find_all doc t a).map (fun e => (getAttr e a).getD "") = specAttrValues doc t a := by
  induction doc with
  | nil => rfl
  | cons e rest ih =>
    simp only [find_all, specAttrValues, List.filter_cons, List.filterMap_cons] at *
    by_cases h1 : e.tag = t
    · cases h2 : getAttr e a with
      | none => simp [h1, h2, ih]
      | some v => simp [h1, h2, ih]
    · simp [h1, ih]

theorem find_all_length_eq (doc : Doc) (t a : String) :
    (find_all doc t a).length = (specAttrValues doc t a).length := by
  rw [← find_all_map_eq doc t a, List.length_map]

theorem str_append_assoc (a b c : String) : a ++ b ++ c = a ++ (b ++ c) := by
  apply String.ext
  simp [String.data_append]

theorem fetch_page_ok (env : Env) (u b : String) (h : env.fetch u = .ok b) :
    fetch_page env u = (some b, []) := by
  simp [fetch_page, h]

theorem fetch_page_error (env : Env) (u e : String) (h : env.fetch u = .error e) :
    fetch_page env u = (none, ["Error fetching URL: " ++ e]) := by
  simp [fetch_page, h]

theorem save_content_eq_display (f t : String) (c : Nat) (dl : List String) :
    (save_to_file f c dl t).1 =
      String.join ((display_statistics c dl t).map (fun l => l ++ "\n")) := by
  cases h : dl.isEmpty <;>
    · apply String.ext
      simp [save_to_file, display_statistics, h, String.join_eq, String.data_append,
        List.map_map, Function.comp_def]

theorem save_content_nonempty (f t : String) (c : Nat) (dl : List String)
    (h : dl.isEmpty = false) :
    (save_to_file f c dl t).1 =
      "Number of " ++ t ++ ": " ++ toString c ++ "\n" ++ "\nDetails:\n" ++
        String.join (dl.enum.map (fun p => toString (p.1 + 1) ++ ". " ++ p.2 ++ "\n")) := by
  apply String.ext
  simp [save_to_file, h, String.data_append]

/-- C1. Link-mode extraction returns a pair whose list is exactly the
`href` values of anchors carrying `href`, in document order (anchors
without the attribute excluded entirely), and whose count is the list's
length; likewise image-mode extraction over `img` and `src`. -/
theorem extraction_spec (doc : Doc) :
    (count_links doc).1 = (count_links doc).2.length ∧
    (count_links doc).2 = specAttrValues doc "a" "href" ∧
    (count_images doc).1 = (count_images doc).2.length ∧
    (count_images doc).2 = specAttrValues doc "img" "src" := by
  refine ⟨?_, ?_, ?_, ?_⟩
  · simp [count_links]
  · simpa [count_links] using find_all_map_eq doc "a" "href"
  · simp [count_images]
  · simpa [count_images] using find_all_map_eq doc "img" "src"

/-- C2. Saving with a non-empty detail list overwrites the destination
file with exactly the count line, a blank line, a Details: header and
1-indexed entries; in particular for count 2, details x and y, type
images the content is exactly "Number of images: 2\n\nDetails:\n1. x\n2. y\n",
and the confirmation line is printed afterwards. -/
theorem save_file_spec (f t : String) (c : Nat) (dl : List String) (h : dl ≠ []) :
    (save_to_file f c dl t).1 =
      "Number of " ++ t ++ ": " ++ toString c ++ "\n" ++ "\nDetails:\n" ++
        String.join (dl.enum.map (fun p => toString (p.1 + 1) ++ ". " ++ p.2 ++ "\n")) ∧
    (save_to_file "out.txt" 2 ["x", "y"] "images").1 =
      "Number of images: 2\n\nDetails:\n1. x\n2. y\n" ∧
    (save_to_file f c dl t).2 = "Results saved to " ++ f :=
  ⟨save_content_nonempty f t c dl (by simpa using h), by decide, rfl⟩

theorem save_file_spec_witness :
    (save_to_file "out.txt" 2 ["x", "y"] "images").1 =
      "Number of images: 2\n\nDetails:\n1. x\n2. y\n" :=
  (save_file_spec "out.txt" "images" 2 ["x", "y"] (by decide)).2.1

/-- C3. Supplying both --link and --picture prints the mode-conflict
message and terminates before any network I/O: no HTTP request is
issued, no extraction or report output beyond that message, and no file
write occurs. -/
theorem mode_conflict_no_io (env : Env) (args : Args)
    (hl : args.link = true) (hp : args.picture = true) :
    runMain env args =
      ⟨["Please choose either --link or --picture, not both."], [], []⟩ := by
  simp [runMain, hl, hp]

theorem mode_conflict_no_io_witness :
    runMain wEnv { wArgs with picture := true } =
      ⟨["Please choose either --link or --picture, not both."], [], []⟩ :=
  mode_conflict_no_io wEnv { wArgs with picture := true } rfl rfl

/-- C4. When the main-page fetch fails, the program prints an error line
containing the failure reason and terminates: the output is just the
optional before-fetch resource block plus the error line, the only
request is the single GET, and there is no extraction output and no
file write. -/
theorem fetch_failure_aborts (env : Env) (args : Args) (e : String)
    (hmode : ¬(args.link = true ∧ args.picture = true))
    (hf : env.fetch args.url = .error e) :
    runMain env args =
      ⟨(if args.ressources then "Before fetching the page:" :: env.resLines 0 else []) ++
         ["Error fetching URL: " ++ e],
       [.get args.url], []⟩ := by
  have hc : (args.link && args.picture) = false := by
    cases h1 : args.link <;> cases h2 : args.picture <;> simp_all
  simp [runMain, hc, fetch_page_error env args.url e hf]

theorem fetch_failure_aborts_witness :
    runMain wEnvFetchFail wArgs =
      ⟨["Error fetching URL: 404 Client Error: Not Found"],
       [.get "http://x.test/"], []⟩ := by
  have h := fetch_failure_aborts wEnvFetchFail wArgs "404 Client Error: Not Found"
    (by decide) rfl
  simpa [wArgs, wEnvFetchFail, wEnv] using h

/-- C5. Counter-evidence for the empty-body claim: `fetch_page` does
return the empty string, distinct from the `none` failure sentinel, for
a successful fetch of an empty body, but `main` tests the result with
`if not page_content`, which is also true of the empty string, so such a
run stops with no extraction, no report and no save instead of
proceeding. -/
theorem empty_body_early_return :
    fetch_page wEnvEmptyBody "http://x.test/" = (some "", []) ∧
    runMain wEnvEmptyBody wArgs = ⟨[], [.get "http://x.test/"], []⟩ :=
  ⟨rfl, by decide⟩

/-- Concrete link-mode stats arguments. -/
def wArgsStats : Args := { wArgs with stats := true }

/-- Concrete image-mode stats arguments. -/
def wArgsImages : Args := { wArgs with link := false, picture := true, stats := true }

/-- Concrete detailed-mode arguments. -/
def wArgsDetailed : Args := { wArgs with detailed := true }

/-- Concrete saving arguments. -/
def wArgsSave : Args := { wArgs with save := some "out.txt" }

/-- C6. With stats set in link mode every raw href is resolved against
the page URL with `urljoin` and the resolved URLs are deduplicated; the
output is the count line, then a blank line, the header and the unique
URLs comma-joined on one line; for hrefs /a, /a, /b on page
http://x.test/ the unique collection is exactly the pair
http://x.test/a, http://x.test/b. -/
theorem stats_links_dedup (env : Env) (args : Args) (body : String)
    (hl : args.link = true) (hp : args.picture = false) (hst : args.stats = true)
    (hd : args.detailed = false) (hs : args.save = none) (hr : args.ressources = false)
    (hf : env.fetch args.url = .ok body) (hb : body ≠ "") :
    runMain env args =
      ⟨["Number of clickable links: " ++ toString (count_links (env.parse body)).1,
        "", "Unique link URLs:",
        String.intercalate ", "
          (pySet ((count_links (env.parse body)).2.map (fun l => urljoin args.url l)))],
       [.get args.url], []⟩ ∧
    pySet (["/a", "/a", "/b"].map (fun l => urljoin "http://x.test/" l)) =
      ["http://x.test/a", "http://x.test/b"] ∧
    (∀ s, s ∈ pySet (["/a", "/a", "/b"].map (fun l => urljoin "http://x.test/" l)) ↔
      (s = "http://x.test/a" ∨ s = "http://x.test/b")) := by
  have hconc : pySet (["/a", "/a", "/b"].map (fun l => urljoin "http://x.test/" l)) =
      ["http://x.test/a", "http://x.test/b"] := by decide
  refine ⟨?_, hconc, fun s => by rw [hconc]; simp⟩
  simp [runMain, hl, hp, hst, hd, hs, hr, fetch_page_ok env args.url body hf, hb]

theorem stats_links_dedup_witness :
    runMain wEnv wArgsStats =
      ⟨["Number of clickable links: 3", "", "Unique link URLs:",
        "http://x.test/a, http://x.test/b"],
       [.get "http://x.test/"], []⟩ := by
  have h := (stats_links_dedup wEnv wArgsStats "<html>" rfl rfl rfl rfl rfl rfl rfl
    (by decide)).1
  exact h.trans (by decide)

/-- C7. With stats set in image mode each src is processed
independently: after the count line every src contributes exactly one
printed line — the size line when its HEAD succeeds, the error line when
it fails — and exactly one HEAD request for its resolved URL, so one
failure never stops the remaining images from being resolved, requested
and reported. -/
theorem stats_images_per_item (env : Env) (args : Args) (body : String)
    (hl : args.link = false) (hp : args.picture = true) (hst : args.stats = true)
    (hd : args.detailed = false) (hs : args.save = none) (hr : args.ressources = false)
    (hf : env.fetch args.url = .ok body) (hb : body ≠ "") :
    runMain env args =
      ⟨["Number of images: " ++ toString (count_images (env.parse body)).1] ++
         (count_images (env.parse body)).2.map (fun img =>
           match env.headReq (urljoin args.url img) with
           | .ok h =>
             "Image URL: " ++ urljoin args.url img ++ " | Size: " ++
               h.getD "unknown" ++ " bytes"
           | .error e => "Error getting image size for " ++ img ++ ": " ++ e),
       [.get args.url] ++
         (count_images (env.parse body)).2.map
           (fun img => .head (urljoin args.url img)),
       []⟩ := by
  have hfst : (fun img => (imageStat env args.url img).1) =
      (fun img =>
        match env.headReq (urljoin args.url img) with
        | .ok h =>
          "Image URL: " ++ urljoin args.url img ++ " | Size: " ++
            h.getD "unknown" ++ " bytes"
        | .error e => "Error getting image size for " ++ img ++ ": " ++ e) := by
    funext img
    cases h : env.headReq (urljoin args.url img) <;> simp [imageStat, h]
  have hsnd : (fun img => (imageStat env args.url img).2) =
      (fun img => Request.head (urljoin args.url img)) := by
    funext img
    cases h : env.headReq (urljoin args.url img) <;> simp [imageStat, h]
  simp [runMain, hl, hp, hst, hd, hs, hr, fetch_page_ok env args.url body hf, hb,
    List.map_map, Function.comp_def, hfst, hsnd]

theorem stats_images_per_item_witness :
    runMain wEnvImages wArgsImages =
      ⟨["Number of images: 2", "Error getting image size for /i1.png: boom",
        "Image URL: http://x.test/i2.png | Size: 42 bytes"],
       [.get "http://x.test/", .head "http://x.test/i1.png",
        .head "http://x.test/i2.png"],
       []⟩ := by
  have h := stats_images_per_item wEnvImages wArgsImages "<html>" rfl rfl rfl rfl rfl
    rfl rfl (by decide)
  exact h.trans (by decide)

/-- C8. In detailed mode an empty extraction list produces the count
line only — no Details: header and no itemized entries — in link mode
and in image mode alike. -/
theorem detailed_empty_count_only (env : Env) (args : Args) (body : String)
    (hd : args.detailed = true) (hst : args.stats = false) (hs : args.save = none)
    (hr : args.ressources = false)
    (hf : env.fetch args.url = .ok body) (hb : body ≠ "") :
    (args.link = true → args.picture = false →
      find_all (env.parse body) "a" "href" = [] →
      runMain env args = ⟨["Number of clickable links: 0"], [.get args.url], []⟩) ∧
    (args.link = false → args.picture = true →
      find_all (env.parse body) "img" "src" = [] →
      runMain env args = ⟨["Number of images: 0"], [.get args.url], []⟩) := by
  constructor
  · intro hl hp hempty
    simp [runMain, hl, hp, hst, hd, hs, hr, fetch_page_ok env args.url body hf, hb,
      display_statistics, count_links, hempty]
    rfl
  · intro hl hp hempty
    simp [runMain, hl, hp, hst, hd, hs, hr, fetch_page_ok env args.url body hf, hb,
      display_statistics, count_images, hempty]
    rfl

theorem detailed_empty_count_only_witness :
    runMain wEnvNoTags wArgsDetailed =
      ⟨["Number of clickable links: 0"], [.get "http://x.test/"], []⟩ :=
  (detailed_empty_count_only wEnvNoTags wArgsDetailed "<html>" rfl rfl rfl rfl rfl
    (by decide)).1 rfl rfl rfl

/-- C9. Supplying neither --link nor --picture behaves exactly as if
--link had been supplied: the whole run result — output, requests and
file writes — is identical to the same run with the link flag set. -/
theorem default_mode_is_link (env : Env) (args : Args)
    (hl : args.link = false) (hp : args.picture = false) :
    runMain env args = runMain env { args with link := true } := by
  simp [runMain, hl, hp]

theorem default_mode_is_link_witness :
    runMain wEnv { wArgs with link := false } =
      runMain wEnv { { wArgs with link := false } with link := true } :=
  default_mode_is_link wEnv { wArgs with link := false } rfl rfl

/-- C10. The saved file content does not depend on the detailed flag and
is fully determined by the count, the detail list and the type label:
with save set, the single write is exactly the save_to_file content of
the extracted pair for the selected mode, and flipping detailed to any
value leaves the file writes unchanged. -/
theorem save_independent_of_detailed (env : Env) (args : Args) (body f : String)
    (hmode : ¬(args.link = true ∧ args.picture = true))
    (hf : env.fetch args.url = .ok body) (hb : body ≠ "")
    (hs : args.save = some f) (hfne : f ≠ "") :
    (runMain env args).fileWrites =
      [(f, (save_to_file f
          (if args.link || !args.picture then (count_links (env.parse body)).1
           else (count_images (env.parse body)).1)
          (if args.link || !args.picture then (count_links (env.parse body)).2
           else (count_images (env.parse body)).2)
          (if args.link || !args.picture then "clickable links" else "images")).1)] ∧
    (∀ d, (runMain env { args with detailed := d }).fileWrites =
      (runMain env args).fileWrites) := by
  cases h1 : args.link <;> cases h2 : args.picture
  · constructor
    · simp [runMain, h1, h2, fetch_page_ok env args.url body hf, hb, hs, hfne]
    · intro d
      simp [runMain, h1, h2, fetch_page_ok env args.url body hf, hb, hs, hfne]
  · constructor
    · simp [runMain, h1, h2, fetch_page_ok env args.url body hf, hb, hs, hfne]
    · intro d
      simp [runMain, h1, h2, fetch_page_ok env args.url body hf, hb, hs, hfne]
  · constructor
    · simp [runMain, h1, h2, fetch_page_ok env args.url body hf, hb, hs, hfne]
    · intro d
      simp [runMain, h1, h2, fetch_page_ok env args.url body hf, hb, hs, hfne]
  · exact absurd ⟨h1, h2⟩ hmode

theorem save_independent_of_detailed_witness :
    (runMain wEnv wArgsSave).fileWrites =
      [("out.txt",
        "Number of clickable links: 3\n\nDetails:\n1. /a\n2. /a\n3. /b\n")] ∧
    (runMain wEnv { wArgsSave with detailed := true }).fileWrites =
      (runMain wEnv wArgsSave).fileWrites := by
  have h := save_independent_of_detailed wEnv wArgsSave "<html>" "out.txt"
    (by decide) rfl (by decide) rfl (by decide)
  exact ⟨h.1.trans (by decide), h.2 true⟩
